import Mathlib

/-!
# Verification of the SO100 VLA demo WebSocket coordinator

Shallow embedding of the connection/streaming/behavior coordinator of
`so100_vla_demo` (`server.py`, `mock_robot_interface.py`, `llm_engine.py`)
and proofs of its specified properties.

Modelling conventions:
- A WebSocket connection is an opaque client id (`ClientId := Nat`).
- Whether `ws.send_json` raises for a given connection is an environment
  oracle `fails : ClientId → Bool`; a raising send is `Except.error ()`.
- Python dicts are association lists in insertion order with unique keys;
  `dictSet`/`dictUpdate`/`dictGet` model item assignment, `dict.update`
  and lookup.
- Joint values are abstract (`JVal := Int`): none of the verified
  properties depends on float arithmetic, and the float-valued scanning
  delta of the mock behavior is abstracted as a parameter.
- Fallible Python calls are `Except`-valued; a Lean function with a plain
  (non-`Except`) result type models a Python function that catches every
  exception internally and returns normally.
-/

/-- Client ids stand for accepted WebSocket connections. -/
abbrev ClientId := Nat

/-- Abstract joint value (the source uses Python floats; the verified
properties are value-agnostic). -/
abbrev JVal := Int

/-- An observation image: `HxWxC` shape plus an abstract content tag
(enough to distinguish the synthetic-scene phases of the mock robot). -/
structure Frame where
  h : Nat
  w : Nat
  c : Nat
  content : Nat
deriving DecidableEq, Repr

/-- The JSON events the server sends, one constructor per distinct key
set appearing in `server.py`:
- `status`     = `{"type":"status","phase":...}`
- `statusDetail` = `{"type":"status","phase":...,"detail":...}`
- `statusAck`  = `{"type":"status","text":...,"phase":...}` (command acks)
- `reasoning`  = `{"type":"reasoning","thought":...}`
- `frame`      = `{"type":"frame","shape":...,"image_b64":...,"joints":...}`
- `chatMsg`    = `{"type":"chat","text":...}`
- `errMsg`     = `{"type":"error","text":...}` -/
inductive Event where
  | status (phase : String)
  | statusDetail (phase detail : String)
  | statusAck (text phase : String)
  | reasoning (thought : String)
  | frame (shape : List Nat) (imageB64 : String) (joints : List (String × JVal))
  | chatMsg (text : String)
  | errMsg (text : String)
deriving DecidableEq, Repr

/-! ## Python dict model

Association lists in insertion order with unique keys. `dictSet` is item
assignment (`d[k] = v`): it replaces the value at the first occurrence of
`k`, or appends `(k, v)` if `k` is absent. `dictUpdate` is `d.update(u)`.
`dictGet` is `d.get(k)` / `d[k]` as an `Option`. -/

def dictGet {K V : Type} [DecidableEq K] : List (K × V) → K → Option V
  | [], _ => none
  | p :: d, k => if p.1 = k then some p.2 else dictGet d k

def dictSet {K V : Type} [DecidableEq K] : List (K × V) → K → V → List (K × V)
  | [], k, v => [(k, v)]
  | p :: d, k, v => if p.1 = k then (k, v) :: d else p :: dictSet d k v

def dictUpdate {K V : Type} [DecidableEq K] (d u : List (K × V)) : List (K × V) :=
  u.foldl (fun acc p => dictSet acc p.1 p.2) d

theorem dictGet_dictSet_same {K V : Type} [DecidableEq K]
    (d : List (K × V)) (k : K) (v : V) : dictGet (dictSet d k v) k = some v := by
  induction d with
  | nil => simp [dictSet, dictGet]
  | cons p d ih =>
    by_cases h : p.1 = k
    · simp [dictSet, h, dictGet]
    · simp [dictSet, h, dictGet, ih]

theorem dictGet_dictSet_other {K V : Type} [DecidableEq K]
    (d : List (K × V)) (k k' : K) (v : V) (hne : k ≠ k') :
    dictGet (dictSet d k v) k' = dictGet d k' := by
  induction d with
  | nil => simp [dictSet, dictGet, hne]
  | cons p d ih =>
    by_cases h : p.1 = k
    · simp [dictSet, h, dictGet, hne]
    · simp [dictSet, h, dictGet, ih]

theorem dictGet_dictUpdate_not_mem {K V : Type} [DecidableEq K]
    (d u : List (K × V)) (k : K) (hk : k ∉ u.map Prod.fst) :
    dictGet (dictUpdate d u) k = dictGet d k := by
  induction u generalizing d with
  | nil => rfl
  | cons p u ih =>
    simp only [List.map_cons, List.mem_cons] at hk
    push_neg at hk
    have : dictUpdate d (p :: u) = dictUpdate (dictSet d p.1 p.2) u := rfl
    rw [this, ih _ hk.2, dictGet_dictSet_other]
    exact fun h => hk.1 h.symm

theorem dictGet_dictUpdate_mem {K V : Type} [DecidableEq K]
    (d u : List (K × V)) (k : K) (v : V)
    (hu : (u.map Prod.fst).Nodup) (hmem : (k, v) ∈ u) :
    dictGet (dictUpdate d u) k = some v := by
  induction u generalizing d with
  | nil => cases hmem
  | cons p u ih =>
    simp only [List.map_cons, List.nodup_cons] at hu
    have hstep : dictUpdate d (p :: u) = dictUpdate (dictSet d p.1 p.2) u := rfl
    rcases List.mem_cons.mp hmem with h | h
    · subst h
      rw [hstep, dictGet_dictUpdate_not_mem _ _ _ hu.1, dictGet_dictSet_same]
    · exact hstep ▸ ih _ hu.2 h

/-! ## ConnectionManager.broadcast_json (server.py:80-90)

The source iterates the active set, sending the message to each member
inside a `try`/`except` that records failing members in a `disconnect`
set, then discards every recorded member. The active set is a Python
`set`; we model it as a duplicate-free list (iteration order is one
fixed enumeration of the set). -/

/-- `ws.send_json(message)`: raises exactly when the environment oracle
says this connection fails. -/
def sendJson (fails : ClientId → Bool) (ws : ClientId) (_message : Event) :
    Except Unit Unit :=
  if fails ws then .error () else .ok ()

/-- The `for ws in self.active_connections` loop of `broadcast_json`:
returns the list of successful deliveries (recipient, message) in
iteration order, and the `disconnect` set collected from failing sends. -/
def broadcastPass (fails : ClientId → Bool) (message : Event) :
    List ClientId → List (ClientId × Event) × List ClientId
  | [] => ([], [])
  | ws :: rest =>
    let r := broadcastPass fails message rest
    match sendJson fails ws message with
    | .ok _ => ((ws, message) :: r.1, r.2)
    | .error _ => (r.1, ws :: r.2)

/-- `ConnectionManager.broadcast_json`: deliver to every active
connection, then discard every member whose send raised. The result type
is a plain pair (not `Except`): the source catches every exception raised
by a send, so the call never raises to its caller. -/
def broadcast_json (fails : ClientId → Bool) (active : List ClientId)
    (message : Event) : List (ClientId × Event) × List ClientId :=
  let r := broadcastPass fails message active
  (r.1, active.filter (fun ws => ¬ r.2.contains ws))

theorem broadcastPass_fst (fails : ClientId → Bool) (message : Event)
    (conns : List ClientId) :
    (broadcastPass fails message conns).1 =
      (conns.filter (fun ws => fails ws = false)).map (fun ws => (ws, message)) := by
  induction conns with
  | nil => rfl
  | cons ws rest ih =>
    by_cases h : fails ws
    · simp [broadcastPass, sendJson, h, ih]
    · simp [broadcastPass, sendJson, h, ih]

theorem broadcastPass_snd (fails : ClientId → Bool) (message : Event)
    (conns : List ClientId) :
    (broadcastPass fails message conns).2 = conns.filter (fun ws => fails ws) := by
  induction conns with
  | nil => rfl
  | cons ws rest ih =>
    by_cases h : fails ws
    · simp [broadcastPass, sendJson, h, ih]
    · simp [broadcastPass, sendJson, h, ih]

/-! ## MockRobotInterface (mock_robot_interface.py)

State of the mock robot. The optional OpenCV video capture is an external
handle that exists only when the `cv2` import succeeds; we model the
configuration without OpenCV, in which `_video_cap` is always `None`, so
`_get_frame` chooses between the configured static image and the
synthetic scene. Loading the static image is external file I/O, modelled
as a parameter to `connect`. -/

structure MockRobot where
  joints : List (String × JVal)
  connected : Bool
  frameIndex : Nat
  staticImage : Option Frame
deriving DecidableEq, Repr

/-- Default joint dictionary of `MockRobotInterface` (values abstracted
to `0`). -/
def mockRobotInit : MockRobot :=
  { joints := [("joint_0", 0), ("joint_1", 0), ("joint_2", 0)]
    connected := false
    frameIndex := 0
    staticImage := none }

/-- `MockRobotInterface._generate_synthetic_scene`: a 480x640x3 image
whose content depends on `(frame_index // 20) % 3` (which shapes are
drawn). Called after `_frame_index` has been incremented. -/
def generate_synthetic_scene (frameIndex : Nat) : Frame :=
  ⟨480, 640, 3, (frameIndex / 20) % 3⟩

/-- `MockRobotInterface._get_frame` (without the OpenCV video source, as
described above): return the static image if configured, else the
synthetic scene after bumping `_frame_index`. -/
def mock_get_frame (r : MockRobot) : Frame × MockRobot :=
  match r.staticImage with
  | some img => (img, r)
  | none =>
    let r' := { r with frameIndex := r.frameIndex + 1 }
    (generate_synthetic_scene r'.frameIndex, r')

/-- `MockRobotInterface.connect`: a no-op when already connected,
otherwise set the connected flag and lazily load the static image
(`loaded` is the result of that external load — `none` when no path is
configured or loading fails). Never raises. -/
def mock_connect (loaded : Option Frame) (r : MockRobot) : MockRobot :=
  if r.connected then r
  else { r with connected := true, staticImage := loaded }

/-- `MockRobotInterface.get_observation`: raises `RuntimeError` when not
connected; otherwise returns a frame and `dict(self.joints)`. -/
def get_observation (r : MockRobot) :
    Except Unit ((Frame × List (String × JVal)) × MockRobot) :=
  if ¬ r.connected then .error ()
  else
    let fr := mock_get_frame r
    .ok ((fr.1, r.joints), fr.2)

/-- `MockRobotInterface.send_joint_targets`: `self.joints.update(joint_targets)`. -/
def send_joint_targets (r : MockRobot) (joint_targets : List (String × JVal)) :
    MockRobot :=
  { r with joints := dictUpdate r.joints joint_targets }

/-! ## The abstract robot interface used by the server tasks

`camera_stream_loop` and `_mock_search_and_grasp` call the module-level
`robot_interface` through the narrow contract
`get_observation() -> (image, joint_map)` / `send_joint_targets(joint_map)`.
We model that collaborator as a record over its own state type, so the
task-level theorems quantify over any robot implementation (the mock one
above being an instance). -/

structure RobotAPI (σ : Type) where
  getObservation : σ → Except Unit ((Frame × List (String × JVal)) × σ)
  sendJointTargets : List (String × JVal) → σ → σ

/-- The mock robot as a `RobotAPI` instance. -/
def mockRobotAPI : RobotAPI MockRobot :=
  { getObservation := get_observation
    sendJointTargets := fun ts r => send_joint_targets r ts }

/-! ## _mock_search_and_grasp (server.py:165-234)

The broadcast payloads the behavior emits, in emission order, threading
the robot state through the observation fetches and joint-target writes.
The float-valued scan delta `0.1 * sin(step / 3 + idx)` added to each
joint is abstracted as `delta : step → idx → value → value`; it never
influences which events are emitted. -/

def startThought (objectName : String) : String :=
  "Starting search for '" ++ objectName ++ "' using mock policy."

def searchStepThought (step : Nat) : String :=
  "[search step " ++ toString step ++ "] Panning camera to look for the object..."

def visibleThought (objectName : String) : String :=
  "Object '" ++ objectName ++ "' appears to be visible. Switching to grasp phase."

def graspStepThought (step : Nat) : String :=
  "[grasp step " ++ toString step ++ "] Moving end-effector to grasp the object..."

def completedThought (objectName : String) : String :=
  "Grasp completed in mock mode for '" ++ objectName ++ "'."

/-- The fake joint-space scanning pattern: `new_joints` maps each joint
name, in enumeration order, to its value shifted by the (abstracted)
delta for this step and index. -/
def scanJoints (delta : Nat → Nat → JVal → JVal) (step : Nat)
    (joints : List (String × JVal)) : List (String × JVal) :=
  joints.enum.map (fun p => (p.2.1, delta step p.1 p.2.2))

/-- The `for step in range(10)` search loop of `_mock_search_and_grasp`:
each iteration fetches an observation — on an exception it broadcasts the
`error` status and returns (flag `false`) — then writes the scanning
joint targets and broadcasts one search `reasoning` event. Returns the
events it broadcast, the final robot state, and whether it completed all
iterations. -/
def searchLoop {σ : Type} (R : RobotAPI σ) (delta : Nat → Nat → JVal → JVal) :
    Nat → Nat → σ → List Event × σ × Bool
  | _, 0, s => ([], s, true)
  | step, n + 1, s =>
    match R.getObservation s with
    | .error _ => ([Event.statusDetail "error" "observation_failed"], s, false)
    | .ok ((_, joints), s1) =>
      let s2 := R.sendJointTargets (scanJoints delta step joints) s1
      let r := searchLoop R delta (step + 1) n s2
      (Event.reasoning (searchStepThought step) :: r.1, r.2)

/-- `_mock_search_and_grasp(object_name)`: the full behavior script.
Broadcasts `status "searching"` and an opening `reasoning`, runs the
search loop (which returns early on an observation failure), and when the
search completed, announces visibility, broadcasts `status "grasping"`,
the five grasp-step `reasoning` events, the completion `reasoning`, and
`status "done"`. -/
def mock_search_and_grasp {σ : Type} (R : RobotAPI σ)
    (delta : Nat → Nat → JVal → JVal) (object_name : String) (s : σ) :
    List Event × σ :=
  let r := searchLoop R delta 0 10 s
  let evs0 := Event.status "searching" :: Event.reasoning (startThought object_name)
      :: r.1
  if r.2.2 then
    (evs0 ++ [Event.reasoning (visibleThought object_name), Event.status "grasping"]
          ++ (List.range 5).map (fun st => Event.reasoning (graspStepThought st))
          ++ [Event.reasoning (completedThought object_name), Event.status "done"],
     r.2.1)
  else (evs0, r.2.1)

/-! ## camera_stream_loop (server.py:115-158)

The loop first connects the robot; a connection failure resets the
`streaming` flag to `false` and returns without broadcasting anything.
Otherwise, while `streaming` holds, it fetches an observation, encodes a
thumbnail (`encode`, abstracting the PIL/JPEG/base64 pipeline), and
broadcasts one `frame` payload. An observation exception inside the loop
escapes it (the `finally` clause only logs). The unbounded `while` is
indexed by `fuel`, the number of iterations observed; `streaming` is a
snapshot of the global flag, constant while no handler runs. The result
lists the broadcast payloads and gives the final flag and robot state. -/

def streamFrames {σ : Type} (R : RobotAPI σ) (encode : Frame → String) :
    Nat → Bool → σ → List Event × Bool × σ
  | 0, streaming, rob => ([], streaming, rob)
  | _ + 1, false, rob => ([], false, rob)
  | fuel + 1, true, rob =>
    match R.getObservation rob with
    | .error _ => ([], true, rob)
    | .ok ((frame, joints), rob') =>
      let payload := Event.frame [frame.h, frame.w, frame.c] (encode frame) joints
      let r := streamFrames R encode fuel true rob'
      (payload :: r.1, r.2)

def camera_stream_loop {σ : Type} (R : RobotAPI σ)
    (connectRobot : σ → Except Unit σ) (encode : Frame → String)
    (fuel : Nat) (streaming : Bool) (rob : σ) : List Event × Bool × σ :=
  match connectRobot rob with
  | .error _ => ([], false, rob)
  | .ok rob0 => streamFrames R encode fuel streaming rob0

/-! ## LLM engines (llm_engine.py)

`GeminiEngine`, `ClaudeEngine` and `QwenEngine` all raise
`NotImplementedError` from `chat`; `StubEngine` echoes the last user
message with Python `repr` quoting. The reply dict's `"content"` field is
modelled as the returned string. -/

inductive Engine where
  | gemini
  | claude
  | qwen
  | stub
deriving DecidableEq, Repr

/-- Python `repr` quote choice for a string: single quotes, unless the
string contains a single quote and no double quote. -/
def pyReprQuote (s : String) : Char :=
  if s.toList.contains '\'' && !(s.toList.contains '"') then '"' else '\''

/-- Two-digit lowercase hex rendering of a byte value. -/
def hexDigit (n : Nat) : Char :=
  if n < 10 then Char.ofNat (48 + n) else Char.ofNat (97 + (n - 10))

/-- Python `repr` escaping of one character inside quotes `q`: backslash,
the active quote, newline, carriage return, tab, and ASCII control/DEL
characters as `\xhh`; other characters are kept as-is (we model strings
of printable characters exactly). -/
def pyEscapeChar (q : Char) (c : Char) : String :=
  if c = '\\' then "\\\\"
  else if c = q then "\\" ++ String.singleton q
  else if c = '\n' then "\\n"
  else if c = '\r' then "\\r"
  else if c = '\t' then "\\t"
  else if c.toNat < 32 || c.toNat == 127 then
    "\\x" ++ String.singleton (hexDigit (c.toNat / 16))
          ++ String.singleton (hexDigit (c.toNat % 16))
  else String.singleton c

/-- Python `repr` of a string (`f"{s!r}"`). -/
def pyRepr (s : String) : String :=
  let q := pyReprQuote s
  String.singleton q ++ String.join (s.toList.map (pyEscapeChar q)) ++ String.singleton q

/-- `StubEngine.chat`: find the last message with role `"user"` and echo
its content with a fixed profile around its `repr`. Messages are
(role, content) pairs. -/
def stubEngineChat (messages : List (String × String)) : String :=
  let lastUser := ((messages.reverse.find? (fun m => m.1 == "user")).map Prod.snd).getD ""
  "[STUB LLM] I received: " ++ pyRepr lastUser
    ++ ". Configure a real LLM to get meaningful answers."

/-- `engine.chat(messages)`: the three provider engines raise
`NotImplementedError` (`Except.error`); the stub engine answers. -/
def engineChat (e : Engine) (messages : List (String × String)) :
    Except Unit String :=
  match e with
  | .stub => .ok (stubEngineChat messages)
  | _ => .error ()

/-- The chat branch of the WebSocket handler (server.py:263-279): call
the configured engine with the single user message; on
`NotImplementedError`, fall back to a fresh `StubEngine`. -/
def chatReply (e : Engine) (text : String) : String :=
  match engineChat e [("user", text)] with
  | .ok reply => reply
  | .error _ => stubEngineChat [("user", text)]

/-! ## The WebSocket endpoint message handler (server.py:237-334)

One iteration of the receive loop, dispatching one incoming message
against the module-level state. Incoming messages either fail JSON
parsing (`badJson`) or yield a dict whose relevant string fields are
extracted (`data.get("type")`, `data.get("action")`, `data.get("text")`,
`data.get("object")`); an absent field is `none`.

Background tasks are modelled by ids: `nextTaskId` is the fresh-id
counter, `streamTasksLive` lists the ids of camera-stream-loop tasks that
have been created and neither cancelled nor stopped, and `behaviorTasks`
records every created behavior task with its status. The handler returns
the updated state and the list of `send_json` payloads sent back to the
sending connection (and to it only — broadcasts happen inside the tasks,
not in the handler). -/

structure ClientMsg where
  type : Option String
  action : Option String
  text : Option String
  objectField : Option String
deriving DecidableEq, Repr

inductive Incoming where
  | badJson
  | good (m : ClientMsg)
deriving DecidableEq, Repr

inductive BStatus where
  | running
  | done
  | cancelled
deriving DecidableEq, Repr

structure ServerState where
  active : List ClientId
  streaming : Bool
  streamTask : Option Nat
  behaviorTask : Option Nat
  nextTaskId : Nat
  streamTasksLive : List Nat
  behaviorTasks : List (Nat × BStatus)
deriving DecidableEq, Repr

/-- `behavior_task is not None and not behavior_task.done()` followed by
`behavior_task.cancel()`: mark the referenced task cancelled when it is
still running. -/
def cancelPriorBehavior (s : ServerState) : ServerState :=
  match s.behaviorTask with
  | none => s
  | some t =>
    if dictGet s.behaviorTasks t = some BStatus.running then
      { s with behaviorTasks := dictSet s.behaviorTasks t BStatus.cancelled }
    else s

/-- `str(data.get("object", "object")).strip() or "object"`. -/
def objectNameOf (field : Option String) : String :=
  let t := (field.getD "object").trim
  if t = "" then "object" else t

/-- Python `repr` of an optional string field (`None` has repr `"None"`). -/
def pyReprOpt : Option String → String
  | none => "None"
  | some s => pyRepr s

/-- One dispatch step of `websocket_endpoint`'s receive loop. -/
def websocket_endpoint_step (engine : Engine) (isMock : Bool)
    (inc : Incoming) (s : ServerState) : ServerState × List Event :=
  match inc with
  | .badJson => (s, [Event.errMsg "Invalid JSON"])
  | .good m =>
    if m.type = some "chat" then
      let text := m.text.getD ""
      (s, [Event.chatMsg (chatReply engine text)])
    else if m.type = some "command" then
      if m.action = some "start_stream" then
        let s' :=
          if ¬ s.streaming then
            { s with streaming := true
                     streamTask := some s.nextTaskId
                     nextTaskId := s.nextTaskId + 1
                     streamTasksLive := s.streamTasksLive ++ [s.nextTaskId] }
          else s
        (s', [Event.statusAck "streaming_started" "streaming"])
      else if m.action = some "stop_stream" then
        let s1 := { s with streaming := false }
        let s2 :=
          match s1.streamTask with
          | some t =>
            { s1 with streamTask := none
                      streamTasksLive := s1.streamTasksLive.filter (fun x => x ≠ t) }
          | none => s1
        (s2, [Event.statusAck "streaming_stopped" "idle"])
      else if m.action = some "search_and_grasp" then
        let object_name := objectNameOf m.objectField
        let s1 := cancelPriorBehavior s
        if isMock then
          let s2 := { s1 with
            behaviorTask := some s1.nextTaskId
            nextTaskId := s1.nextTaskId + 1
            behaviorTasks := s1.behaviorTasks ++ [(s1.nextTaskId, BStatus.running)] }
          (s2, [Event.statusAck
                 ("search_and_grasp started for '" ++ object_name ++ "' (mock mode)")
                 "searching"])
        else
          (s1, [Event.statusAck
                 "search_and_grasp is only implemented in mock mode for now."
                 "idle"])
      else
        (s, [Event.errMsg ("Unknown command action: " ++ pyReprOpt m.action)])
    else
      (s, [Event.errMsg ("Unknown message type: " ++ pyReprOpt m.type)])

/-! ## Behavior replacement traces (server.py:298-313)

A small-step interleaving model of one `search_and_grasp` command
arriving while a prior behavior task is active, under the single-threaded
cooperative (asyncio) scheduling of the source:

- while the handler has not yet run its cancel statement (`handlerPC = 0`)
  the old behavior task may resume at a suspension point and broadcast its
  next event (`oldEmit`);
- the handler cancels the prior task (`behavior_task.cancel()`,
  `cancelOld`) — after this the old task raises `CancelledError` at its
  next suspension point and broadcasts nothing further (`oldAlive = false`);
  when the prior task was already finished (`behavior_task.done()`), the
  handler skips the cancel (`skipCancel`), which requires the old task to
  be no longer emitting;
- only then does the handler launch the replacement
  (`asyncio.create_task`, `launchNew`), whose script (`newEmit`) is its
  event list in order — for the mock behavior, `mock_search_and_grasp`,
  whose first event is `status "searching"`.

`ReplRun script s tr` holds when `tr` is a possible sequence of broadcast
events observed from state `s` onward, labelled by which invocation
emitted them. -/

inductive RLabel where
  | oldEv (e : Event)
  | newEv (e : Event)
deriving DecidableEq, Repr

structure ReplState where
  oldRemaining : List Event
  oldAlive : Bool
  handlerPC : Nat
  newRemaining : Option (List Event)
deriving DecidableEq, Repr

inductive ReplRun (script : List Event) : ReplState → List RLabel → Prop where
  | halt (s : ReplState) : ReplRun script s []
  | oldEmit {s : ReplState} {e : Event} {rest : List Event} {tr : List RLabel} :
      s.oldAlive = true → s.oldRemaining = e :: rest →
      ReplRun script { s with oldRemaining := rest } tr →
      ReplRun script s (RLabel.oldEv e :: tr)
  | cancelOld {s : ReplState} {tr : List RLabel} :
      s.handlerPC = 0 →
      ReplRun script { s with handlerPC := 1, oldAlive := false } tr →
      ReplRun script s tr
  | skipCancel {s : ReplState} {tr : List RLabel} :
      s.handlerPC = 0 → s.oldAlive = false →
      ReplRun script { s with handlerPC := 1 } tr →
      ReplRun script s tr
  | launchNew {s : ReplState} {tr : List RLabel} :
      s.handlerPC = 1 →
      ReplRun script { s with handlerPC := 2, newRemaining := some script } tr →
      ReplRun script s tr
  | newEmit {s : ReplState} {e : Event} {rest : List Event} {tr : List RLabel} :
      s.newRemaining = some (e :: rest) →
      ReplRun script { s with newRemaining := some rest } tr →
      ReplRun script s (RLabel.newEv e :: tr)

/-- The state of the system when the `search_and_grasp` command has been
received but not yet processed: the prior invocation still has
`oldScript` left to emit and is alive, the handler is before its cancel
statement, and no replacement task exists. -/
def replInit (oldScript : List Event) : ReplState :=
  { oldRemaining := oldScript, oldAlive := true, handlerPC := 0, newRemaining := none }

/-- Once the old task is cancelled (or finished), it emits nothing. -/
theorem ReplRun.no_oldEv_of_not_alive {script : List Event} {s : ReplState}
    {tr : List RLabel} (hrun : ReplRun script s tr) (hdead : s.oldAlive = false) :
    ∀ e, RLabel.oldEv e ∉ tr := by
  induction hrun with
  | halt => simp
  | oldEmit halive _ _ _ => rw [hdead] at halive; cases halive
  | cancelOld _ _ ih => exact ih rfl
  | skipCancel _ _ _ ih => exact ih hdead
  | launchNew _ _ ih => exact ih hdead
  | newEmit _ _ ih =>
    intro e hmem
    rcases List.mem_cons.mp hmem with h | h
    · cases h
    · exact ih hdead e h

/-- Invariant from the initial state: whenever the handler has passed its
cancel statement, or the replacement task exists, the old task is dead. -/
def replInv (s : ReplState) : Prop :=
  (1 ≤ s.handlerPC ∨ s.newRemaining.isSome) → s.oldAlive = false

theorem ReplRun.no_oldEv_after_newEv {script : List Event} {s : ReplState}
    {tr : List RLabel} (hrun : ReplRun script s tr) (hinv : replInv s) :
    ∀ tr₁ e tr₂, tr = tr₁ ++ RLabel.newEv e :: tr₂ →
      ∀ e', RLabel.oldEv e' ∉ tr₂ := by
  induction hrun with
  | halt =>
    intro tr₁ e tr₂ heq
    exact absurd heq.symm (List.append_ne_nil_of_right_ne_nil _ (by simp))
  | @oldEmit s e₀ rest tr halive hrem _ ih =>
    intro tr₁ e tr₂ heq e'
    match tr₁, heq with
    | [], heq => simp at heq
    | l :: tr₁, heq =>
      have h1 : l = RLabel.oldEv e₀ ∧ tr = tr₁ ++ RLabel.newEv e :: tr₂ := by
        have := heq
        simp only [List.cons_append] at this
        exact ⟨(List.cons_eq_cons.mp this).1.symm, (List.cons_eq_cons.mp this).2⟩
      exact ih (fun hp => by
          rcases hp with hp | hp
          · exact absurd (hinv (Or.inl hp)) (by simp [halive])
          · exact absurd (hinv (Or.inr hp)) (by simp [halive]))
        tr₁ e tr₂ h1.2 e'
  | cancelOld hpc _ ih =>
    exact ih (fun _ => rfl)
  | @skipCancel s tr hpc hdead _ ih =>
    exact ih (fun _ => hdead)
  | @launchNew s tr hpc _ ih =>
    intro tr₁ e tr₂ heq e'
    exact ih (fun _ => hinv (Or.inl (by rw [hpc]))) tr₁ e tr₂ heq e'
  | @newEmit s e₀ rest tr hnew hsub ih =>
    intro tr₁ e tr₂ heq e'
    have hdead : s.oldAlive = false := hinv (Or.inr (by rw [hnew]; rfl))
    match tr₁, heq with
    | [], heq =>
      have h2 : tr = tr₂ := (List.cons_eq_cons.mp heq).2
      exact h2 ▸ hsub.no_oldEv_of_not_alive hdead e'
    | l :: tr₁, heq =>
      have h2 : tr = tr₁ ++ RLabel.newEv e :: tr₂ := by
        simp only [List.cons_append] at heq
        exact (List.cons_eq_cons.mp heq).2
      exact ih (fun _ => hdead) tr₁ e tr₂ h2 e'

/-! ## Further dictionary lemmas used by the claim proofs -/

theorem dictGet_append_left {K V : Type} [DecidableEq K]
    (A B : List (K × V)) (k : K) (v : V) (h : dictGet A k = some v) :
    dictGet (A ++ B) k = some v := by
  induction A with
  | nil => simp [dictGet] at h
  | cons p A ih =>
    by_cases hp : p.1 = k
    · simpa [dictGet, hp] using h
    · rw [List.cons_append]
      simp only [dictGet, if_neg hp] at h ⊢
      exact ih h

theorem dictGet_append_right {K V : Type} [DecidableEq K]
    (A B : List (K × V)) (k : K) (h : k ∉ A.map Prod.fst) :
    dictGet (A ++ B) k = dictGet B k := by
  induction A with
  | nil => rfl
  | cons p A ih =>
    simp only [List.map_cons, List.mem_cons] at h
    push_neg at h
    have hne : ¬ p.1 = k := fun hp => h.1 hp.symm
    rw [List.cons_append]
    simp only [dictGet, if_neg hne]
    exact ih h.2

theorem mem_keys_of_dictGet_some {K V : Type} [DecidableEq K]
    (A : List (K × V)) (k : K) (v : V) (h : dictGet A k = some v) :
    k ∈ A.map Prod.fst := by
  induction A with
  | nil => simp [dictGet] at h
  | cons p A ih =>
    by_cases hp : p.1 = k
    · simp [hp]
    · simp only [dictGet, if_neg hp] at h
      simp [ih h]

theorem mem_keys_dictSet {K V : Type} [DecidableEq K]
    (A : List (K × V)) (k x : K) (v : V) :
    x ∈ (dictSet A k v).map Prod.fst ↔ x ∈ A.map Prod.fst ∨ x = k := by
  induction A with
  | nil => simp [dictSet]
  | cons p A ih =>
    by_cases hp : p.1 = k
    · simp only [dictSet, if_pos hp, List.map_cons]
      constructor
      · rintro h
        rcases List.mem_cons.mp h with h | h
        · exact Or.inr h
        · exact Or.inl (List.mem_cons.mpr (Or.inr h))
      · rintro (h | h)
        · rcases List.mem_cons.mp h with h | h
          · exact List.mem_cons.mpr (Or.inl (hp ▸ h))
          · exact List.mem_cons.mpr (Or.inr h)
        · exact List.mem_cons.mpr (Or.inl h)
    · simp only [dictSet, if_neg hp, List.map_cons, List.mem_cons, ih]
      tauto

/-! ## Claim C1 -/

/-- C1: for every broadcast to the active-connection set, the delivery
list is duplicate-free and contains `(ws, message)` for exactly the
non-failing active recipients — so every non-failing recipient receives
the event exactly once and failing recipients never receive it — and
afterwards a connection is in the active set iff it was active and did
not fail. (The call raising no error to its caller is reflected in
`broadcast_json` having a plain, non-`Except` result type: the source
catches every send exception.) The duplicate-freeness hypothesis on
`active` is the set-ness of `active_connections`. -/
theorem broadcast_json_isolates_failures (fails : ClientId → Bool)
    (active : List ClientId) (message : Event) (hnd : active.Nodup) :
    (broadcast_json fails active message).1.Nodup ∧
    (∀ ws, (ws, message) ∈ (broadcast_json fails active message).1 ↔
      ws ∈ active ∧ fails ws = false) ∧
    (∀ ws, ws ∈ (broadcast_json fails active message).2 ↔
      ws ∈ active ∧ fails ws = false) := by
  have hinj : Function.Injective (fun ws : ClientId => (ws, message)) := by
    intro a b hab
    simpa using congrArg Prod.fst hab
  have hfst : (broadcast_json fails active message).1 =
      (active.filter (fun ws => fails ws = false)).map (fun ws => (ws, message)) := by
    simpa [broadcast_json] using broadcastPass_fst fails message active
  have hsnd : (broadcast_json fails active message).2 =
      active.filter (fun ws =>
        ¬ (active.filter (fun w => fails w)).contains ws) := by
    simp [broadcast_json, broadcastPass_snd]
  refine ⟨?_, ?_, ?_⟩
  · rw [hfst]
    exact (hnd.filter _).map hinj
  · intro ws
    rw [hfst]
    constructor
    · intro hmem
      rcases List.mem_map.mp hmem with ⟨w, hw, hweq⟩
      have hws : w = ws := by simpa using congrArg Prod.fst hweq
      subst hws
      have := List.mem_filter.mp hw
      exact ⟨this.1, by simpa using this.2⟩
    · rintro ⟨hmem, hok⟩
      exact List.mem_map.mpr ⟨ws, List.mem_filter.mpr ⟨hmem, by simp [hok]⟩, rfl⟩
  · intro ws
    rw [hsnd]
    by_cases hf : fails ws <;>
      simp [List.mem_filter, List.contains, List.elem_eq_mem, hf]

/-- Witness for C1 at a concrete three-member active set in which exactly
client `1` fails. -/
theorem broadcast_json_isolates_failures_witness :
    ([0, 1, 2] : List ClientId).Nodup ∧
    ((broadcast_json (fun w : ClientId => w == 1) [0, 1, 2]
        (Event.status "x")).1.Nodup ∧
     (∀ ws, (ws, Event.status "x") ∈
        (broadcast_json (fun w : ClientId => w == 1) [0, 1, 2]
          (Event.status "x")).1 ↔
        ws ∈ ([0, 1, 2] : List ClientId) ∧ (fun w : ClientId => w == 1) ws = false) ∧
     (∀ ws, ws ∈ (broadcast_json (fun w : ClientId => w == 1) [0, 1, 2]
          (Event.status "x")).2 ↔
        ws ∈ ([0, 1, 2] : List ClientId) ∧ (fun w : ClientId => w == 1) ws = false)) :=
  ⟨by decide,
   broadcast_json_isolates_failures (fun w : ClientId => w == 1) [0, 1, 2]
    (Event.status "x") (by decide)⟩

/-! ## Claim C9 -/

/-- C9: `send_joint_targets` merges the target map into the joint state:
every joint named in the (duplicate-free, as a Python dict) target map
ends at its given value, and every joint not named keeps its previous
binding. -/
theorem send_joint_targets_merges (r : MockRobot)
    (joint_targets : List (String × JVal))
    (hts : (joint_targets.map Prod.fst).Nodup) :
    (∀ k v, (k, v) ∈ joint_targets →
      dictGet (send_joint_targets r joint_targets).joints k = some v) ∧
    (∀ k, k ∉ joint_targets.map Prod.fst →
      dictGet (send_joint_targets r joint_targets).joints k = dictGet r.joints k) := by
  constructor
  · intro k v hmem
    exact dictGet_dictUpdate_mem _ _ _ _ hts hmem
  · intro k hk
    exact dictGet_dictUpdate_not_mem _ _ _ hk

/-- Witness for C9: overwrite `joint_1` and add `joint_9` on the default
mock joint map. -/
theorem send_joint_targets_merges_witness :
    ([("joint_1", (5 : JVal)), ("joint_9", 7)].map Prod.fst).Nodup ∧
    ((∀ k v, (k, v) ∈ [("joint_1", (5 : JVal)), ("joint_9", 7)] →
      dictGet (send_joint_targets mockRobotInit
        [("joint_1", 5), ("joint_9", 7)]).joints k = some v) ∧
     (∀ k, k ∉ [("joint_1", (5 : JVal)), ("joint_9", 7)].map Prod.fst →
      dictGet (send_joint_targets mockRobotInit
        [("joint_1", 5), ("joint_9", 7)]).joints k = dictGet mockRobotInit.joints k)) :=
  ⟨by decide,
   send_joint_targets_merges mockRobotInit [("joint_1", 5), ("joint_9", 7)] (by decide)⟩

/-! ## Claim C10 -/

/-- C10: `get_observation` raises `RuntimeError` exactly when the mock
robot is not connected; when connected, it returns a frame together with
the stored joint map (`dict(self.joints)`, a copy) and leaves the stored
joint state unmutated (only `_frame_index` may advance). -/
theorem get_observation_raises_iff_disconnected (r : MockRobot) :
    ((get_observation r).isOk = true ↔ r.connected = true) ∧
    (r.connected = true →
      get_observation r = .ok (((mock_get_frame r).1, r.joints), (mock_get_frame r).2) ∧
      (mock_get_frame r).2.joints = r.joints) := by
  constructor
  · cases hc : r.connected <;> simp [get_observation, hc, Except.isOk, Except.toBool]
  · intro hc
    refine ⟨by simp [get_observation, hc], ?_⟩
    cases him : r.staticImage <;> simp [mock_get_frame, him]

/-- Witness for C10: a connected mock robot with no static image (the
synthetic-scene branch). -/
theorem get_observation_raises_iff_disconnected_witness :
    { mockRobotInit with connected := true }.connected = true ∧
    (((get_observation { mockRobotInit with connected := true }).isOk = true ↔
        { mockRobotInit with connected := true }.connected = true) ∧
     (get_observation { mockRobotInit with connected := true } =
        .ok (((mock_get_frame { mockRobotInit with connected := true }).1,
              { mockRobotInit with connected := true }.joints),
             (mock_get_frame { mockRobotInit with connected := true }).2) ∧
      (mock_get_frame { mockRobotInit with connected := true }).2.joints =
        { mockRobotInit with connected := true }.joints)) :=
  ⟨rfl,
   ⟨(get_observation_raises_iff_disconnected _).1,
    (get_observation_raises_iff_disconnected _).2 rfl⟩⟩

/-! ## Claims C4 and C5: the mock behavior's event traces -/

theorem searchLoop_events_of_ok {σ : Type} (R : RobotAPI σ)
    (delta : Nat → Nat → JVal → JVal) :
    ∀ (n step : Nat) (s : σ), (searchLoop R delta step n s).2.2 = true →
      (searchLoop R delta step n s).1 =
        (List.range' step n).map (fun i => Event.reasoning (searchStepThought i)) := by
  intro n
  induction n with
  | zero => intro step s _; rfl
  | succ n ih =>
    intro step s hok
    cases hobs : R.getObservation s with
    | error e => simp [searchLoop, hobs] at hok
    | ok obs =>
      have hrw : searchLoop R delta step (n + 1) s =
          (Event.reasoning (searchStepThought step) ::
            (searchLoop R delta (step + 1) n
              (R.sendJointTargets (scanJoints delta step obs.1.2) obs.2)).1,
           (searchLoop R delta (step + 1) n
              (R.sendJointTargets (scanJoints delta step obs.1.2) obs.2)).2) := by
        simp [searchLoop, hobs]
      rw [hrw] at hok ⊢
      simp only at hok
      rw [List.range'_succ, List.map_cons]
      simp only [List.cons.injEq, true_and]
      exact ih (step + 1) _ hok

theorem searchLoop_events_of_fail {σ : Type} (R : RobotAPI σ)
    (delta : Nat → Nat → JVal → JVal) :
    ∀ (n step : Nat) (s : σ), (searchLoop R delta step n s).2.2 = false →
      ∃ k, (searchLoop R delta step n s).1 =
        (List.range' step k).map (fun i => Event.reasoning (searchStepThought i))
          ++ [Event.statusDetail "error" "observation_failed"] := by
  intro n
  induction n with
  | zero => intro step s h; simp [searchLoop] at h
  | succ n ih =>
    intro step s hfail
    cases hobs : R.getObservation s with
    | error e =>
      refine ⟨0, ?_⟩
      simp [searchLoop, hobs]
    | ok obs =>
      have hrw : searchLoop R delta step (n + 1) s =
          (Event.reasoning (searchStepThought step) ::
            (searchLoop R delta (step + 1) n
              (R.sendJointTargets (scanJoints delta step obs.1.2) obs.2)).1,
           (searchLoop R delta (step + 1) n
              (R.sendJointTargets (scanJoints delta step obs.1.2) obs.2)).2) := by
        simp [searchLoop, hobs]
      rw [hrw] at hfail ⊢
      simp only at hfail
      rcases ih (step + 1) _ hfail with ⟨k, hk⟩
      refine ⟨k + 1, ?_⟩
      simp only [List.range'_succ, List.map_cons, List.cons_append, List.cons.injEq,
        true_and]
      exact hk

/-- C4: when every observation fetch of the run succeeds (the search loop
completes all ten iterations), the mock behavior broadcasts exactly, in
order: the `searching` status, the opening reasoning, the ten search-step
reasonings, the visibility reasoning, the `grasping` status, the five
grasp-step reasonings, the completion reasoning, and the `done` status —
in particular the phases appear in the relative order
searching — reasoning* — grasping — reasoning* — done. -/
theorem mock_search_and_grasp_happy_trace {σ : Type} (R : RobotAPI σ)
    (delta : Nat → Nat → JVal → JVal) (object_name : String) (s : σ)
    (h : (searchLoop R delta 0 10 s).2.2 = true) :
    (mock_search_and_grasp R delta object_name s).1 =
      [Event.status "searching", Event.reasoning (startThought object_name)]
      ++ (List.range' 0 10).map (fun i => Event.reasoning (searchStepThought i))
      ++ [Event.reasoning (visibleThought object_name), Event.status "grasping"]
      ++ (List.range 5).map (fun st => Event.reasoning (graspStepThought st))
      ++ [Event.reasoning (completedThought object_name), Event.status "done"] := by
  have hev := searchLoop_events_of_ok R delta 10 0 s h
  simp [mock_search_and_grasp, h, hev]

/-- Witness for C4: a trivial robot whose observation fetch always
succeeds. -/
theorem mock_search_and_grasp_happy_trace_witness :
    (searchLoop ⟨fun u => .ok ((⟨480, 640, 3, 0⟩, []), u), fun _ u => u⟩
        (fun _ _ v => v) 0 10 ()).2.2 = true ∧
    (mock_search_and_grasp
        (⟨fun u => .ok ((⟨480, 640, 3, 0⟩, []), u), fun _ u => u⟩ : RobotAPI Unit)
        (fun _ _ v => v) "ball" ()).1 =
      [Event.status "searching", Event.reasoning (startThought "ball")]
      ++ (List.range' 0 10).map (fun i => Event.reasoning (searchStepThought i))
      ++ [Event.reasoning (visibleThought "ball"), Event.status "grasping"]
      ++ (List.range 5).map (fun st => Event.reasoning (graspStepThought st))
      ++ [Event.reasoning (completedThought "ball"), Event.status "done"] :=
  ⟨rfl,
   mock_search_and_grasp_happy_trace
    (⟨fun u => .ok ((⟨480, 640, 3, 0⟩, []), u), fun _ u => u⟩ : RobotAPI Unit)
    (fun _ _ v => v) "ball" () rfl⟩

/-- C5: when an observation fetch raises during the search phase (the
search loop stops early), the behavior's full broadcast trace is the
`searching` status, the opening reasoning, the search-step reasonings
already emitted, and finally the `error` status with detail
`observation_failed` as its very last event — so the run terminates
immediately at the error: no `grasping` (or `done`) status and no further
reasoning events follow it. -/
theorem mock_search_and_grasp_error_terminates {σ : Type} (R : RobotAPI σ)
    (delta : Nat → Nat → JVal → JVal) (object_name : String) (s : σ)
    (h : (searchLoop R delta 0 10 s).2.2 = false) :
    (∃ k, (mock_search_and_grasp R delta object_name s).1 =
        (Event.status "searching" :: Event.reasoning (startThought object_name)
          :: (List.range' 0 k).map (fun i => Event.reasoning (searchStepThought i)))
        ++ [Event.statusDetail "error" "observation_failed"]) ∧
    Event.status "grasping" ∉ (mock_search_and_grasp R delta object_name s).1 ∧
    Event.status "done" ∉ (mock_search_and_grasp R delta object_name s).1 ∧
    (mock_search_and_grasp R delta object_name s).1.getLast? =
      some (Event.statusDetail "error" "observation_failed") := by
  rcases searchLoop_events_of_fail R delta 10 0 s h with ⟨k, hk⟩
  have hev : (mock_search_and_grasp R delta object_name s).1 =
      (Event.status "searching" :: Event.reasoning (startThought object_name)
        :: (List.range' 0 k).map (fun i => Event.reasoning (searchStepThought i)))
      ++ [Event.statusDetail "error" "observation_failed"] := by
    simp [mock_search_and_grasp, h, hk]
  refine ⟨⟨k, hev⟩, ?_, ?_, ?_⟩
  · rw [hev]
    simp [List.mem_append, List.mem_map]
  · rw [hev]
    simp [List.mem_append, List.mem_map]
  · rw [hev]
    have hlast : ∀ (a b : Event) (l : List Event) (e : Event),
        (a :: b :: (l ++ [e])).getLast? = some e := by
      intro a b l e
      rw [show a :: b :: (l ++ [e]) = (a :: b :: l) ++ [e] by simp,
        List.getLast?_concat]
    exact hlast _ _ _ _

/-- Witness for C5: a robot whose observation fetch always raises; the
behavior stops right after the opening events. -/
theorem mock_search_and_grasp_error_terminates_witness :
    (searchLoop (⟨fun _ => .error (), fun _ u => u⟩ : RobotAPI Unit)
        (fun _ _ v => v) 0 10 ()).2.2 = false ∧
    ((∃ k, (mock_search_and_grasp (⟨fun _ => .error (), fun _ u => u⟩ : RobotAPI Unit)
          (fun _ _ v => v) "ball" ()).1 =
        (Event.status "searching" :: Event.reasoning (startThought "ball")
          :: (List.range' 0 k).map (fun i => Event.reasoning (searchStepThought i)))
        ++ [Event.statusDetail "error" "observation_failed"]) ∧
     Event.status "grasping" ∉ (mock_search_and_grasp
        (⟨fun _ => .error (), fun _ u => u⟩ : RobotAPI Unit)
        (fun _ _ v => v) "ball" ()).1 ∧
     Event.status "done" ∉ (mock_search_and_grasp
        (⟨fun _ => .error (), fun _ u => u⟩ : RobotAPI Unit)
        (fun _ _ v => v) "ball" ()).1 ∧
     (mock_search_and_grasp (⟨fun _ => .error (), fun _ u => u⟩ : RobotAPI Unit)
        (fun _ _ v => v) "ball" ()).1.getLast? =
       some (Event.statusDetail "error" "observation_failed")) :=
  ⟨rfl,
   mock_search_and_grasp_error_terminates
    (⟨fun _ => .error (), fun _ u => u⟩ : RobotAPI Unit) (fun _ _ v => v) "ball" () rfl⟩

/-! ## Claim C6 -/

/-- C6: when connecting the frame source raises, the streaming loop
resets the `streaming` flag to `false` and returns having broadcast
nothing at all — no `frame` event and no `error` event about the cause. -/
theorem camera_stream_loop_connect_failure {σ : Type} (R : RobotAPI σ)
    (connectRobot : σ → Except Unit σ) (encode : Frame → String)
    (fuel : Nat) (streaming : Bool) (rob : σ)
    (h : connectRobot rob = .error ()) :
    camera_stream_loop R connectRobot encode fuel streaming rob = ([], false, rob) := by
  simp [camera_stream_loop, h]

/-- Witness for C6: a frame source whose connect always raises. -/
theorem camera_stream_loop_connect_failure_witness :
    ((fun _ : Unit => (.error () : Except Unit Unit)) () = .error ()) ∧
    camera_stream_loop (⟨fun u => .ok ((⟨480, 640, 3, 0⟩, []), u), fun _ u => u⟩ :
        RobotAPI Unit)
      (fun _ => .error ()) (fun _ => "jpeg") 7 true () = ([], false, ()) :=
  ⟨rfl,
   camera_stream_loop_connect_failure _ (fun _ => .error ()) (fun _ => "jpeg")
    7 true () rfl⟩

/-! ## Claim C7 -/

/-- An incoming message is malformed when it is not valid JSON, or its
`type` is unrecognized, or it is a command with an unrecognized `action`. -/
def malformedIncoming : Incoming → Prop
  | .badJson => True
  | .good m =>
    (m.type ≠ some "chat" ∧ m.type ≠ some "command") ∨
    (m.type = some "command" ∧ m.action ≠ some "start_stream" ∧
      m.action ≠ some "stop_stream" ∧ m.action ≠ some "search_and_grasp")

/-- C7: handling a malformed incoming message sends exactly one `error`
event, to the sending connection only (the handler's reply channel), and
leaves the whole server state — streaming flag, stream task, behavior
task, task tables, and active-connection set — unchanged. -/
theorem malformed_message_pure_error_reply (engine : Engine) (isMock : Bool)
    (inc : Incoming) (s : ServerState) (h : malformedIncoming inc) :
    (websocket_endpoint_step engine isMock inc s).1 = s ∧
    ∃ t, (websocket_endpoint_step engine isMock inc s).2 = [Event.errMsg t] := by
  cases inc with
  | badJson => exact ⟨rfl, "Invalid JSON", rfl⟩
  | good m =>
    rcases h with ⟨h1, h2⟩ | ⟨h1, h2, h3, h4⟩
    · have hstep : websocket_endpoint_step engine isMock (.good m) s =
          (s, [Event.errMsg ("Unknown message type: " ++ pyReprOpt m.type)]) := by
        simp only [websocket_endpoint_step, if_neg h1, if_neg h2]
      rw [hstep]
      exact ⟨rfl, _, rfl⟩
    · have hc : m.type ≠ some "chat" := by rw [h1]; decide
      have hstep : websocket_endpoint_step engine isMock (.good m) s =
          (s, [Event.errMsg ("Unknown command action: " ++ pyReprOpt m.action)]) := by
        simp only [websocket_endpoint_step, if_neg hc, if_pos h1, if_neg h2, if_neg h3,
          if_neg h4]
      rw [hstep]
      exact ⟨rfl, _, rfl⟩

/-- Witness for C7: an unrecognized command action against a nonempty
server state. -/
theorem malformed_message_pure_error_reply_witness :
    malformedIncoming (.good ⟨some "command", some "dance", none, none⟩) ∧
    ((websocket_endpoint_step .stub true
        (.good ⟨some "command", some "dance", none, none⟩)
        ⟨[0, 1], true, some 0, some 1, 2, [0], [(1, BStatus.running)]⟩).1 =
      ⟨[0, 1], true, some 0, some 1, 2, [0], [(1, BStatus.running)]⟩ ∧
     ∃ t, (websocket_endpoint_step .stub true
        (.good ⟨some "command", some "dance", none, none⟩)
        ⟨[0, 1], true, some 0, some 1, 2, [0], [(1, BStatus.running)]⟩).2 =
       [Event.errMsg t]) :=
  ⟨by unfold malformedIncoming; right; refine ⟨rfl, ?_, ?_, ?_⟩ <;> decide,
   malformed_message_pure_error_reply .stub true
    (.good ⟨some "command", some "dance", none, none⟩)
    ⟨[0, 1], true, some 0, some 1, 2, [0], [(1, BStatus.running)]⟩
    (by unfold malformedIncoming; right; refine ⟨rfl, ?_, ?_, ?_⟩ <;> decide)⟩

/-! ## Claim C2 -/

/-- The parsed form of `{"type":"command","action":"start_stream"}`. -/
def startStreamCmd : Incoming :=
  .good { type := some "command", action := some "start_stream",
          text := none, objectField := none }

/-- The state transformation of one `start_stream` dispatch. -/
def startStreamStep (engine : Engine) (isMock : Bool) (s : ServerState) :
    ServerState :=
  (websocket_endpoint_step engine isMock startStreamCmd s).1

/-- Consistency between the `streaming` flag and the set of live
camera-stream-loop tasks: exactly one while streaming, none while idle. -/
def streamInv (s : ServerState) : Prop :=
  (s.streaming = true → s.streamTasksLive.length = 1) ∧
  (s.streaming = false → s.streamTasksLive = [])

theorem start_stream_step_of_streaming (engine : Engine) (isMock : Bool)
    (s : ServerState) (h : s.streaming = true) :
    startStreamStep engine isMock s = s := by
  simp [startStreamStep, websocket_endpoint_step, startStreamCmd, h]

theorem start_stream_step_of_idle (engine : Engine) (isMock : Bool)
    (s : ServerState) (h : s.streaming = false) :
    startStreamStep engine isMock s =
      { s with streaming := true
               streamTask := some s.nextTaskId
               nextTaskId := s.nextTaskId + 1
               streamTasksLive := s.streamTasksLive ++ [s.nextTaskId] } := by
  simp [startStreamStep, websocket_endpoint_step, startStreamCmd, h]

theorem streamInv_preserved (engine : Engine) (isMock : Bool) (s : ServerState)
    (h : streamInv s) : streamInv (startStreamStep engine isMock s) := by
  cases hst : s.streaming with
  | true => rw [start_stream_step_of_streaming engine isMock s hst]; exact h
  | false =>
    rw [start_stream_step_of_idle engine isMock s hst]
    refine ⟨fun _ => ?_, fun hcontra => by simp at hcontra⟩
    simp [h.2 hst]

/-- C2: `start_stream` while already streaming changes nothing (the same
state comes back: no new task, no flag change); `start_stream` while idle
sets the flag and launches exactly one new loop task; and along any
sequence of `start_stream` commands from a consistent state, at most one
stream-loop task is ever live. -/
theorem start_stream_idempotent_single_flight (engine : Engine) (isMock : Bool)
    (s : ServerState) :
    (s.streaming = true → startStreamStep engine isMock s = s) ∧
    (s.streaming = false →
      (startStreamStep engine isMock s).streaming = true ∧
      (startStreamStep engine isMock s).streamTasksLive =
        s.streamTasksLive ++ [s.nextTaskId] ∧
      (startStreamStep engine isMock s).streamTask = some s.nextTaskId) ∧
    (streamInv s → ∀ n : Nat,
      ((startStreamStep engine isMock)^[n] s).streamTasksLive.length ≤ 1) := by
  refine ⟨start_stream_step_of_streaming engine isMock s, ?_, ?_⟩
  · intro h
    rw [start_stream_step_of_idle engine isMock s h]
    exact ⟨rfl, rfl, rfl⟩
  · intro hinv n
    have hiter : streamInv ((startStreamStep engine isMock)^[n] s) := by
      induction n with
      | zero => exact hinv
      | succ m ih =>
        rw [Function.iterate_succ_apply']
        exact streamInv_preserved engine isMock _ ih
    rcases hiter with ⟨h1, h0⟩
    cases hst : ((startStreamStep engine isMock)^[n] s).streaming with
    | true => exact (h1 hst).le
    | false => simp [h0 hst]

/-- Witness for C2: two consecutive `start_stream` commands from the
fresh idle state leave exactly one live stream task. -/
theorem start_stream_idempotent_single_flight_witness :
    (⟨[], false, none, none, 0, [], []⟩ : ServerState).streaming = false ∧
    streamInv (⟨[], false, none, none, 0, [], []⟩ : ServerState) ∧
    ((startStreamStep .stub true ⟨[], false, none, none, 0, [], []⟩).streaming = true ∧
     (startStreamStep .stub true ⟨[], false, none, none, 0, [], []⟩).streamTasksLive =
       [] ++ [0] ∧
     (startStreamStep .stub true ⟨[], false, none, none, 0, [], []⟩).streamTask =
       some 0) ∧
    ((startStreamStep .stub true)^[2]
        ⟨[], false, none, none, 0, [], []⟩).streamTasksLive.length ≤ 1 := by
  have hinv : streamInv (⟨[], false, none, none, 0, [], []⟩ : ServerState) := by
    unfold streamInv
    exact ⟨fun h => (Bool.false_ne_true h).elim, fun _ => rfl⟩
  exact ⟨rfl, hinv,
    (start_stream_idempotent_single_flight .stub true
      ⟨[], false, none, none, 0, [], []⟩).2.1 rfl,
    (start_stream_idempotent_single_flight .stub true
      ⟨[], false, none, none, 0, [], []⟩).2.2 hinv 2⟩

/-! ## Claim C8 -/

/-- C8: since no real LLM provider is implemented (all three provider
engines raise `NotImplementedError`), a chat message with text `t` is
answered to the sender with a single `chat` event whose text is the stub
echo: the fixed prefix followed by the `repr`-quoted `t` and the fixed
closing sentence — whichever engine is configured. In particular, the
reply to `"hello"` starts with `[STUB LLM] I received: 'hello'.`. -/
theorem chat_stub_echo (engine : Engine) (isMock : Bool) (s : ServerState)
    (t : String) :
    websocket_endpoint_step engine isMock
        (.good ⟨some "chat", none, some t, none⟩) s =
      (s, [Event.chatMsg ("[STUB LLM] I received: " ++ pyRepr t
        ++ ". Configure a real LLM to get meaningful answers.")]) ∧
    (∃ rest, chatReply engine "hello" =
      "[STUB LLM] I received: 'hello'." ++ rest) := by
  constructor
  · cases engine <;> rfl
  · exact ⟨" Configure a real LLM to get meaningful answers.",
      by cases engine <;> decide⟩

/-! ## Claim C3 -/

/-- The parsed form of
`{"type":"command","action":"search_and_grasp","object":...}`. -/
def searchGraspCmd (obj : Option String) : Incoming :=
  .good ⟨some "command", some "search_and_grasp", none, obj⟩

/-- C3: replacing a running behavior.

Handler part (first conjunct): dispatching `search_and_grasp` in mock
mode while the recorded behavior task `t` is still running marks `t`
cancelled and only then records the replacement as a distinct, fresh
running task — so the two scripted behaviors are never simultaneously
running in the task table.

Trace part (second conjunct): in the cooperative interleaving model
`ReplRun` — where the handler cancels the old task before launching the
new one, and a cancelled task broadcasts nothing further — once any event
of the replacing invocation (its first being `status "searching"`)
appears in a trace, no event of the earlier invocation appears after it. -/
theorem behavior_replacement_exclusive :
    (∀ (engine : Engine) (obj : Option String) (s : ServerState) (t : Nat),
      s.behaviorTask = some t →
      dictGet s.behaviorTasks t = some BStatus.running →
      s.nextTaskId ∉ s.behaviorTasks.map Prod.fst →
      dictGet (websocket_endpoint_step engine true (searchGraspCmd obj) s).1.behaviorTasks
          t = some BStatus.cancelled ∧
      (websocket_endpoint_step engine true (searchGraspCmd obj) s).1.behaviorTask =
        some s.nextTaskId ∧
      dictGet (websocket_endpoint_step engine true (searchGraspCmd obj) s).1.behaviorTasks
          s.nextTaskId = some BStatus.running ∧
      t ≠ s.nextTaskId) ∧
    (∀ (oldScript newScript : List Event) (tr tr₁ : List RLabel) (e : Event)
        (tr₂ : List RLabel),
      ReplRun newScript (replInit oldScript) tr →
      tr = tr₁ ++ RLabel.newEv e :: tr₂ →
      ∀ e', RLabel.oldEv e' ∉ tr₂) := by
  constructor
  · intro engine obj s t htask hrun hfresh
    have htmem : t ∈ s.behaviorTasks.map Prod.fst :=
      mem_keys_of_dictGet_some _ _ _ hrun
    have hne : t ≠ s.nextTaskId := fun he => hfresh (he ▸ htmem)
    have hcancel : cancelPriorBehavior s =
        { s with behaviorTasks := dictSet s.behaviorTasks t BStatus.cancelled } := by
      simp [cancelPriorBehavior, htask, hrun]
    have hstep : (websocket_endpoint_step engine true (searchGraspCmd obj) s).1 =
        { s with
            behaviorTask := some s.nextTaskId
            nextTaskId := s.nextTaskId + 1
            behaviorTasks := dictSet s.behaviorTasks t BStatus.cancelled
              ++ [(s.nextTaskId, BStatus.running)] } := by
      simp [websocket_endpoint_step, searchGraspCmd, hcancel]
    rw [hstep]
    refine ⟨?_, rfl, ?_, hne⟩
    · exact dictGet_append_left _ _ _ _ (dictGet_dictSet_same _ _ _)
    · have hnot : s.nextTaskId ∉
          (dictSet s.behaviorTasks t BStatus.cancelled).map Prod.fst := by
        rw [mem_keys_dictSet]
        rintro (h | h)
        · exact hfresh h
        · exact hne h.symm
      rw [dictGet_append_right _ _ _ hnot]
      simp [dictGet]
  · intro oldScript newScript tr tr₁ e tr₂ hrun hsplit
    refine hrun.no_oldEv_after_newEv ?_ tr₁ e tr₂ hsplit
    intro hp
    rcases hp with hp | hp
    · simp [replInit] at hp
    · simp [replInit] at hp

/-- Witness for C3: a state whose behavior task `0` is running and a
two-event interleaving in which the old task emits one reasoning event
and the replacement then emits its `searching` status. -/
theorem behavior_replacement_exclusive_witness :
    (ServerState.behaviorTask
        ⟨[], false, none, some 0, 1, [], [(0, BStatus.running)]⟩ = some 0 ∧
      dictGet [(0, BStatus.running)] 0 = some BStatus.running ∧
      (1 : Nat) ∉ ([(0, BStatus.running)].map Prod.fst) ∧
      dictGet (websocket_endpoint_step .stub true (searchGraspCmd (some "ball"))
          ⟨[], false, none, some 0, 1, [], [(0, BStatus.running)]⟩).1.behaviorTasks 0 =
        some BStatus.cancelled) ∧
    (ReplRun [Event.status "searching"] (replInit [Event.reasoning "r0"])
        [RLabel.oldEv (Event.reasoning "r0"), RLabel.newEv (Event.status "searching")] ∧
      RLabel.oldEv (Event.reasoning "r0") ∉ ([] : List RLabel)) := by
  have hrun : ReplRun [Event.status "searching"] (replInit [Event.reasoning "r0"])
      [RLabel.oldEv (Event.reasoning "r0"), RLabel.newEv (Event.status "searching")] := by
    apply ReplRun.oldEmit rfl rfl
    apply ReplRun.cancelOld rfl
    apply ReplRun.launchNew rfl
    apply ReplRun.newEmit rfl
    exact ReplRun.halt _
  refine ⟨⟨rfl, by decide, by decide, ?_⟩, hrun, ?_⟩
  · exact ((behavior_replacement_exclusive.1 .stub (some "ball")
      ⟨[], false, none, some 0, 1, [], [(0, BStatus.running)]⟩ 0 rfl
      (by decide) (by decide))).1
  · exact behavior_replacement_exclusive.2 [Event.reasoning "r0"]
      [Event.status "searching"]
      [RLabel.oldEv (Event.reasoning "r0"), RLabel.newEv (Event.status "searching")]
      [RLabel.oldEv (Event.reasoning "r0")] (Event.status "searching") [] hrun rfl
      (Event.reasoning "r0")
